import Mathlib

/-!
Shallow embedding of `src/data_dir/src/data_dir.py` (the `data_dir` module,
version "0.6"): a hierarchical, directory-backed data container built on a
`treelib`-style tree of nodes.

Modelling conventions:
* `pandas.DataFrame` payloads are modelled as `List Nat` (`DF`); only
  emptiness and structural equality of payloads matter to the claims, and the
  parquet round-trip is assumed faithful (the tabular engine is an external
  collaborator per the spec).
* attribute maps (JSON objects) are modelled as association lists
  `List (String × String)`.
* the filesystem is a set of directories plus a map from file paths to typed
  contents; `Path.mkdir()` fails when the directory exists or its parent is
  missing, and writing a file fails when its parent directory is missing,
  mirroring CPython/pathlib behaviour.
* Python exceptions are `Except Err`; state mutated before an exception stays
  mutated (results carry the partially-updated state, as in Python).
* `treelib.Tree` is modelled by a root identifier plus a node list in
  insertion order; `create_node`, `paste`, `subtree` and the DFS iteration
  order (children sorted by tag, as `expand_tree` does with `sorting=True`)
  follow the treelib semantics used by the source.
* Python object aliasing cannot be represented in a pure value model: a tree
  node whose `data` is the very container that owns the tree (the root node a
  `File` registers for itself, and the node a flatten-out copies for the
  subtree root) is marked `Elem.selfRef`; elements stored into trees are
  structural snapshots.
* the absorb-in loop of `__setitem__` (lines 121-127) reads `node.parent`,
  an attribute treelib's `Node` does not have (the flatten-out loop uses the
  real API, `n.predecessor(tree_id)`): with a nonempty source tree the first
  iteration raises `AttributeError` before anything is mutated, and the
  model reflects that.
-/

namespace DataDir

/-- File names used by the module (`DDIR_FILE`, `ATTRIBUTES_FILE`, `DATA_FILE`). -/
def DDIR_FILE : String := "ddir.json"

def ATTRIBUTES_FILE : String := "attributes.json"

def DATA_FILE : String := "data.parq"

/-- `__version__ = "0.6"`. -/
def ddVersion : String := "0.6"

/-- Attribute maps: JSON objects, modelled as association lists. -/
abbrev Attrs := List (String × String)

/-- Tabular payloads (`pandas.DataFrame`); `[]` is the "empty" sentinel. -/
abbrev DF := List Nat

/-- Python exceptions raised by the module and its collaborators. -/
inductive Err where
  | keyError        -- KeyError
  | valueError      -- ValueError
  | groupError      -- data_dir.GroupError
  | readOnly        -- ValueError('DataDir is read only - no setting allowed')
  | duplicatedNode  -- treelib DuplicatedNodeIdError
  | multipleRoot    -- treelib MultipleRootError
  | nodeAbsent      -- treelib NodeIDAbsentError
  | fileExists      -- OSError FileExistsError
  | fileNotFound    -- OSError FileNotFoundError
  | nameError       -- NameError (undefined global)
  | indexError      -- IndexError (list index out of range)
  | attributeError  -- AttributeError (attribute missing on an object)
  deriving DecidableEq, Repr

/-- Disk-I/O events, in the order the code attempts them. -/
inductive Ev where
  | mkdirEv (p : String)
  | writeDdir (p : String) (ty : String)
  | writeAttrs (p : String)
  | writePayload (p : String)
  | readPayload (p : String)
  deriving DecidableEq, Repr

/-- On-disk file contents: descriptor, attribute map, or parquet payload. -/
inductive FCont where
  | ddirF (ty ver : String)
  | attrsF (a : Attrs)
  | parqF (df : DF)
  deriving DecidableEq, Repr

/-- The filesystem: existing directories and files with contents. -/
structure FS where
  dirs : List String
  files : List (String × FCont)
  deriving DecidableEq, Repr

/-! ### String helpers mirroring Python `str.rsplit`, `str.split` and `pathlib` joins -/

/-- Does `l` start with `pre`? -/
def begMatch : List Char → List Char → Bool
  | [], _ => true
  | _ :: _, [] => false
  | c :: cs, d :: ds => c == d && begMatch cs ds

/-- Everything after the first occurrence of `sep` in `s`
(Python `s.split(sep, maxsplit=1)[1]`); `none` when `sep` does not occur. -/
def chopAt (sep : List Char) : List Char → Option (List Char)
  | [] => if begMatch sep [] then some [] else none
  | c :: t =>
    if begMatch sep (c :: t) then some ((c :: t).drop sep.length)
    else chopAt sep t

/-- Python `s.split(sep, maxsplit=1)[1]` as an `Option`. -/
def pySplitAfter (s sep : String) : Option String :=
  (chopAt sep.data s.data).map (fun l => ⟨l⟩)

/-- Split at the last occurrence of `c`: `some (before, after)`, or `none`. -/
def lastSplitChar (c : Char) : List Char → Option (List Char × List Char)
  | [] => none
  | x :: t =>
    match lastSplitChar c t with
    | some (b, a) => some (x :: b, a)
    | none => if x == c then some ([], t) else none

/-- Python `key.rsplit('/', maxsplit=1)`: `none` when no slash occurs
(a single-element result), else the pair of pieces. -/
def rsplitSlash (s : String) : Option (String × String) :=
  (lastSplitChar '/' s.data).map (fun p => (⟨p.1⟩, ⟨p.2⟩))

/-- `pathlib` join `p / k`; pathlib normalises a `"."` component away. -/
def pjoin (p k : String) : String := if k = "." then p else p ++ "/" ++ k

/-- Parent directory of a path (the part before the last slash). -/
def parentDir (s : String) : String :=
  match rsplitSlash s with
  | some (d, _) => d
  | none => ""

/-! ### Filesystem operations -/

def readFS (fs : FS) (p : String) : Option FCont :=
  (fs.files.find? (fun q => q.1 == p)).map (fun q => q.2)

/-- `open(p, 'w')` + write: fails when the parent directory is missing. -/
def writeFS (fs : FS) (p : String) (c : FCont) : Except Err FS :=
  if fs.dirs.contains (parentDir p) then
    .ok { fs with files := fs.files.filter (fun q => !(q.1 == p)) ++ [(p, c)] }
  else .error .fileNotFound

/-- `Path.mkdir()`: fails when the target exists or the parent is missing. -/
def mkdirFS (fs : FS) (p : String) : Except Err FS :=
  if fs.dirs.contains p || fs.files.any (fun q => q.1 == p) then .error .fileExists
  else if !(fs.dirs.contains (parentDir p)) then .error .fileNotFound
  else .ok { fs with dirs := fs.dirs ++ [p] }

/-! ### Elements and the treelib-style node store -/

/-- A `treelib.Node`: tag, identifier, parent identifier, attached data. -/
structure TNode (α : Type) where
  tag : String
  id : String
  parent : Option String
  data : α
  deriving Repr

/-- The element attached to a node, a closed set of variants
(`Group`, `DataSet`, `Raw`, `Attribute`).  A `Group`'s state is inlined:
its `type` string (`'group'`, or `'file'` for the root class), attribute
map, optional backing path, and its own tree (root identifier + nodes).
`selfRef` marks a node whose `data` aliases the container owning the tree
(the `File` root node, and the subtree-root copy made by flatten-out). -/
inductive Elem where
  | group (ty : String) (attrs : Attrs) (path : Option String)
      (root : Option String) (nodes : List (TNode Elem))
  | dataset (attrs : Attrs) (df : DF)
  | raw
  | attrMark
  | selfRef

abbrev NodesL := List (TNode Elem)

/-- In-memory state of a `Group` (`File` included, with `ty = "file"`). -/
structure GrpS where
  ty : String
  attrs : Attrs
  path : Option String
  root : Option String
  nodes : NodesL

def GrpS.contains (g : GrpS) (i : String) : Bool :=
  g.nodes.any (fun n => n.id == i)

def GrpS.findN (g : GrpS) (i : String) : Option (TNode Elem) :=
  g.nodes.find? (fun n => n.id == i)

/-- A bare tree state: root identifier and node list (insertion order). -/
abbrev TState := Option String × NodesL

/-- Root after a successful `create_node`. -/
def rootUpd (st : TState) (n : TNode Elem) : Option String :=
  match n.parent with
  | none => some n.id
  | some _ => st.1

/-- State after a successful `create_node` (kernel of `createN`). -/
def applyCreate (st : TState) (n : TNode Elem) : TState :=
  (rootUpd st n, st.2 ++ [n])

/-- `treelib.Tree.create_node(tag, identifier, parent, data)`: duplicate
identifier, a second root, or a missing parent raise. -/
def createN (st : TState) (n : TNode Elem) : Except Err TState :=
  if st.2.any (fun m => m.id == n.id) then .error .duplicatedNode
  else match n.parent with
    | none =>
      match st.1 with
      | some _ => .error .multipleRoot
      | none => .ok (applyCreate st n)
    | some pid =>
      if st.2.any (fun m => m.id == pid) then .ok (applyCreate st n)
      else .error .nodeAbsent

/-- A sequence of `create_node` calls; on failure the partially built state
is kept (Python mutates in place before raising). -/
def buildFold : NodesL → TState → (Except Err Unit) × TState
  | [], st => (.ok (), st)
  | n :: t, st =>
    match createN st n with
    | .error e => (.error e, st)
    | .ok st' => buildFold t st'

/-- Decidable success condition for `buildFold` from state `st`: each node's
identifier is fresh and its parent either is absent (only while the tree has
no root) or already present. -/
def wfFrom (st : TState) : NodesL → Bool
  | [] => true
  | n :: t =>
    (!(st.2.any (fun m => m.id == n.id)))
      && (match n.parent with
          | none => !st.1.isSome
          | some pid => st.2.any (fun m => m.id == pid))
      && wfFrom (applyCreate st n) t

/-- `treelib.Tree.paste(nid, new_tree)`: no-op for an empty tree; raises on
overlapping identifiers; reparents the pasted root under `nid`. -/
def pasteT (st : TState) (nid : String) (other : TState) : Except Err TState :=
  match other.1 with
  | none => .ok st
  | some orid =>
    if other.2.any (fun n => st.2.any (fun m => m.id == n.id)) then .error .valueError
    else .ok (st.1, st.2 ++ other.2.map (fun n =>
      if n.id == orid then { n with parent := some nid } else n))

/-! ### Subtree enumeration (`Tree.subtree` + `all_nodes_itr`)

`subtree(nid)` shares the nodes reachable from `nid` and resets the root's
parent; iterating the subtree visits nodes in `expand_tree` order: depth
first, children sorted by tag (treelib sorts with the node's `__lt__`,
which compares tags). -/

def childrenOf (ns : NodesL) (pid : String) : NodesL :=
  ns.filter (fun n => n.parent == some pid)

/-- Stable insertion into a tag-sorted list (Python `sort` is stable). -/
def insTag (n : TNode Elem) : NodesL → NodesL
  | [] => [n]
  | m :: t => if m.tag < n.tag then m :: insTag n t else n :: m :: t

def sortTag : NodesL → NodesL
  | [] => []
  | n :: t => insTag n (sortTag t)

/-- Depth-first expansion with tag-sorted children; `fuel` bounds the walk
(the trees built by the module are acyclic, so fuel is never exhausted). -/
def dfsAux (ns : NodesL) : Nat → NodesL → NodesL
  | 0, _ => []
  | _ + 1, [] => []
  | f + 1, q :: rest => q :: dfsAux ns f (sortTag (childrenOf ns q.id) ++ rest)

/-- Nodes of `subtree(item)` in iteration order, subtree root first with its
parent cleared. -/
def subtreeNodes (g : GrpS) (item : String) : NodesL :=
  match g.findN item with
  | none => []
  | some n0 => dfsAux g.nodes (g.nodes.length + 1) [{ n0 with parent := none }]

/-! ### Path resolution (`key.rsplit('/', maxsplit=1)` in both accessors) -/

/-- The resolved parent identifier: the piece before the last slash, or the
tree's root identifier when the key has no slash (lines 69-74 / 107-112). -/
def resolveParent (g : GrpS) (key : String) : Option String :=
  match rsplitSlash key with
  | none => g.root
  | some (a, _) => some a

/-- The resolved leaf name. -/
def leafKey (key : String) : String :=
  match rsplitSlash key with
  | none => key
  | some (_, b) => b

/-- The `__setitem__` guard `item_0 is not None and item_0 not in self.tree`
(line 114). -/
def parentBad (g : GrpS) (key : String) : Bool :=
  match resolveParent g key with
  | none => false
  | some i0 => !(g.contains i0)

/-! ### `Group.__getitem__` -/

/-- Result of a lookup: an element, or an attribute value (line 78). -/
inductive GetOut where
  | el (e : Elem)
  | av (v : String)

structure GRes where
  res : Except Err GetOut
  self : GrpS
  evs : List Ev

/-- `isinstance(node.data, ElementWithAttributes)` plus its `attrs`; a
`selfRef` node aliases the owning container, so its attrs are the owner's. -/
def elemAttrs? (ownAttrs : Attrs) : Elem → Option Attrs
  | .group _ a _ _ _ => some a
  | .dataset a _ => some a
  | .selfRef => some ownAttrs
  | .raw => none
  | .attrMark => none

def lookupA (a : Attrs) (k : String) : Option String :=
  (a.find? (fun q => q.1 == k)).map (fun q => q.2)

/-- One step of the flatten-out loop (lines 87-92): reduce the parent and
the identifier with `split(item, maxsplit=1)[1]`, then `create_node` into the
group's own tree.  The subtree root's `data` is the owning container itself
(aliasing), marked `selfRef`; an absent separator raises `IndexError`. -/
def flatFold (item : String) : NodesL → TState → (Except Err Unit) × TState
  | [], st => (.ok (), st)
  | n :: t, st =>
    match (match n.parent with
           | none => some (none : Option String)
           | some pp => (pySplitAfter pp item).map some) with
    | none => (.error .indexError, st)
    | some rp =>
      match pySplitAfter n.id item with
      | none => (.error .indexError, st)
      | some rid =>
        match createN st ⟨n.tag, rid, rp, if n.id == item then .selfRef else n.data⟩ with
        | .error e => (.error e, st)
        | .ok st' => flatFold item t st'

/-- Replace the data of the node identified by `item`. -/
def setData (g : GrpS) (item : String) (d : Elem) : GrpS :=
  { g with nodes := g.nodes.map (fun m => if m.id == item then { m with data := d } else m) }

/-- `Group.__getitem__` (lines 66-100).  Misses fall back to the parent
node's attribute map; a `Group` node is flattened out into its own tree; a
`DataSet` node with the empty-payload sentinel is lazily loaded from disk. -/
def GrpS.getitem (g : GrpS) (fs : FS) (item : String) : GRes :=
  if !(g.contains item) then
    let item0 : Option String :=
      match rsplitSlash item with
      | none => g.root
      | some (a, _) => some a
    let akey : String :=
      match rsplitSlash item with
      | none => item
      | some (_, b) => b
    match item0 with
    | some i0 =>
      if g.contains i0 then
        match g.findN i0 with
        | some nd =>
          match elemAttrs? g.attrs nd.data with
          | some as_ =>
            match lookupA as_ akey with
            | some v => ⟨.ok (.av v), g, []⟩
            | none => ⟨.error .keyError, g, []⟩
          | none => ⟨.error .keyError, g, []⟩
        | none => ⟨.error .keyError, g, []⟩
      else ⟨.error .keyError, g, []⟩
    | none => ⟨.error .keyError, g, []⟩
  else
    match g.findN item with
    | none => ⟨.error .keyError, g, []⟩
    | some nd =>
      match nd.data with
      | .group gt ga gp gr gn =>
        let stree := subtreeNodes g item
        let bp := flatFold item stree (gr, gn)
        let newData := Elem.group gt ga gp bp.2.1 bp.2.2
        let g' := setData g item newData
        match bp.1 with
        | .error e => ⟨.error e, g', []⟩
        | .ok _ => ⟨.ok (.el newData), g', []⟩
      | .dataset da ddf =>
        if ddf.isEmpty then
          match g.path with
          | none => ⟨.error .groupError, g, []⟩
          | some p =>
            let fp := pjoin (pjoin p item) DATA_FILE
            match readFS fs fp with
            | some (.parqF df2) =>
              ⟨.ok (.el (.dataset da df2)), setData g item (.dataset da df2), [.readPayload fp]⟩
            | some _ => ⟨.error .valueError, g, [.readPayload fp]⟩
            | none => ⟨.error .fileNotFound, g, [.readPayload fp]⟩
        else ⟨.ok (.el (.dataset da ddf)), g, []⟩
      | other => ⟨.ok (.el other), g, []⟩

/-! ### `Group.__setitem__` -/

structure SRes where
  res : Except Err Unit
  self : GrpS
  fs : FS
  evs : List Ev
  val : Elem

/-- `isinstance(value, ElementWithAttributes)`. -/
def isEWA : Elem → Bool
  | .group _ _ _ _ _ => true
  | .dataset _ _ => true
  | .selfRef => true
  | .raw => false
  | .attrMark => false

/-- `value.attrs` of an attribute-bearing element. -/
def elAttrs : Elem → Attrs
  | .group _ a _ _ _ => a
  | .dataset a _ => a
  | _ => []

def SRes.withEvs (pre : List Ev) (r : SRes) : SRes :=
  { r with evs := pre ++ r.evs }

/-- The common persistence block (lines 144-148): for an attribute-bearing
value under a linked container, `mkdir` the mirrored directory, write the
type descriptor, then write the attribute map. -/
def ewaWrites (g : GrpS) (fs : FS) (key : String) (ddType : String) (v : Elem) : SRes :=
  if isEWA v then
    match g.path with
    | none => ⟨.ok (), g, fs, [], v⟩
    | some p =>
      let dir := pjoin p key
      match mkdirFS fs dir with
      | .error e => ⟨.error e, g, fs, [.mkdirEv dir], v⟩
      | .ok fs1 =>
        match writeFS fs1 (pjoin dir DDIR_FILE) (.ddirF ddType ddVersion) with
        | .error e => ⟨.error e, g, fs1, [.mkdirEv dir, .writeDdir dir ddType], v⟩
        | .ok fs2 =>
          match writeFS fs2 (pjoin dir ATTRIBUTES_FILE) (.attrsF (elAttrs v)) with
          | .error e =>
            ⟨.error e, g, fs2, [.mkdirEv dir, .writeDdir dir ddType, .writeAttrs dir], v⟩
          | .ok fs3 =>
            ⟨.ok (), g, fs3, [.mkdirEv dir, .writeDdir dir ddType, .writeAttrs dir], v⟩
  else ⟨.ok (), g, fs, [], v⟩

/-- `Group.__setitem__` (lines 102-148).  A `Group` value enters the absorb
loop (lines 121-127), whose body reads `node.parent`; treelib's `Node` has
no `parent` attribute (the flatten-out loop at lines 88-91 uses the real
API, `n.predecessor(tree_id)`), so a NONEMPTY source tree raises
`AttributeError` at the first iteration — before any `create_node` and
before the `value.tree = new_tree` assignment — leaving the destination
store, the value and the disk unchanged.  With an empty source tree the
loop never runs: the top node for `key` holding the value is created, and
pasting the still-empty fresh tree is a no-op.  A `DataSet` value's
payload is written to disk (before any `mkdir`) when the container is
linked.  `Raw` and `Attribute` values are silently ignored.  In Python the
value `self` inserted by `File.__init__` is a `Group` instance with an
empty tree; it is modelled by a `group` snapshot, so `selfRef` can only
reach the final `ValueError` branch here. -/
def GrpS.setitem (g : GrpS) (fs : FS) (key : String) (v : Elem) : SRes :=
  if g.contains key then ⟨.error .keyError, g, fs, [], v⟩
  else if parentBad g key then ⟨.error .keyError, g, fs, [], v⟩
  else
    match v with
    | .group vty va vp vroot vnodes =>
      match vnodes with
      | _ :: _ => ⟨.error .attributeError, g, fs, [], v⟩
      | [] =>
        match createN (g.root, g.nodes)
            ⟨leafKey key, key, resolveParent g key, .group vty va vp vroot []⟩ with
        | .error e => ⟨.error e, g, fs, [], .group vty va vp vroot []⟩
        | .ok st1 =>
          match pasteT st1 key (none, []) with
          | .error e =>
            ⟨.error e, { g with root := st1.1, nodes := st1.2 }, fs, [],
             .group vty va vp vroot []⟩
          | .ok st2 =>
            ewaWrites { g with root := st2.1, nodes := st2.2 } fs key vty
              (.group vty va vp vroot [])
    | .dataset da ddf =>
      match createN (g.root, g.nodes) ⟨leafKey key, key, resolveParent g key, .dataset da ddf⟩ with
      | .error e => ⟨.error e, g, fs, [], v⟩
      | .ok st1 =>
        let g' := { g with root := st1.1, nodes := st1.2 }
        match g.path with
        | none => ewaWrites g' fs key "dataset" v
        | some p =>
          let fp := pjoin (pjoin p key) DATA_FILE
          match writeFS fs fp (.parqF ddf) with
          | .error e => ⟨.error e, g', fs, [.writePayload fp], v⟩
          | .ok fs1 => SRes.withEvs [.writePayload fp] (ewaWrites g' fs1 key "dataset" v)
    | .raw => ⟨.ok (), g, fs, [], v⟩
    | .attrMark => ⟨.ok (), g, fs, [], v⟩
    | .selfRef => ⟨.error .valueError, g, fs, [], v⟩

/-! ### `File` -/

/-- A `File` is a `Group` with an access mode. -/
structure Fil where
  g : GrpS
  mode : String

structure FRes where
  res : Except Err Unit
  f : Fil
  fs : FS
  evs : List Ev
  val : Elem

/-- `File.__setitem__` (lines 205-210): modes other than `'a'`/`'w'` are
rejected before anything is touched. -/
def Fil.setitem (f : Fil) (fs : FS) (key : String) (v : Elem) : FRes :=
  if f.mode == "a" || f.mode == "w" then
    let r := f.g.setitem fs key v
    ⟨r.res, { f with g := r.self }, r.fs, r.evs, r.val⟩
  else ⟨.error .readOnly, f, fs, [], v⟩

/-- `File.__init__` (lines 156-203).  In `'a'`/`'r'` mode the root descriptor
is checked, then line 172 evaluates `i.relative_to(p)` where `p` is a module
global that is only defined inside the `if __name__ == '__main__'` block:
when `data_dir` is used as a library the scan raises
`NameError: name 'p' is not defined` before any node is reconstructed.
In `'w'` mode the path must be fresh and the root registers itself via
`self['.'] = self` (modelled with a snapshot of the empty root group). -/
def fileInit (fs : FS) (path : String) (mode : String) : (Except Err Fil) × FS × List Ev :=
  let base : GrpS := { ty := "file", attrs := [], path := some path, root := none, nodes := [] }
  if mode == "a" || mode == "r" then
    match readFS fs (pjoin path DDIR_FILE) with
    | none => (.error .valueError, fs, [])
    | some (.ddirF t _) =>
      if t == "file" then (.error .nameError, fs, [])
      else (.error .valueError, fs, [])
    | some _ => (.error .valueError, fs, [])
  else if mode == "w" then
    if fs.dirs.contains path || fs.files.any (fun q => q.1 == path) then
      (.error .valueError, fs, [])
    else if (readFS fs (pjoin path DDIR_FILE)).isSome then (.error .valueError, fs, [])
    else
      let r := Fil.setitem ⟨base, "w"⟩ fs "." (.group "file" [] (some path) none [])
      match r.res with
      | .error e => (.error e, r.fs, r.evs)
      | .ok _ => (.ok r.f, r.fs, r.evs)
  else (.ok ⟨base, mode⟩, fs, [])

/-! ### Toolkit lemmas about the tree-building fold -/

theorem applyCreate_nodes (st : TState) (n : TNode Elem) :
    (applyCreate st n).2 = st.2 ++ [n] := rfl

theorem foldl_applyCreate_nodes (L : NodesL) :
    ∀ st : TState, (L.foldl applyCreate st).2 = st.2 ++ L := by
  induction L with
  | nil => intro st; simp
  | cons n t ih =>
    intro st
    rw [List.foldl_cons, ih (applyCreate st n), applyCreate_nodes, List.append_assoc]
    rfl

theorem createN_eq_ok (st : TState) (n : TNode Elem)
    (h1 : st.2.any (fun m => m.id == n.id) = false)
    (h2 : match n.parent with
          | none => st.1 = none
          | some pid => st.2.any (fun m => m.id == pid) = true) :
    createN st n = .ok (applyCreate st n) := by
  unfold createN
  rw [h1]
  cases hp : n.parent with
  | none =>
    rw [hp] at h2
    simp only [Bool.false_eq_true, if_false, h2]
  | some pid =>
    rw [hp] at h2
    simp only [Bool.false_eq_true, if_false, h2, if_true]

theorem buildFold_wf (L : NodesL) :
    ∀ st : TState, wfFrom st L = true →
      buildFold L st = (.ok (), L.foldl applyCreate st) := by
  induction L with
  | nil => intro st _; simp [buildFold, wfFrom]
  | cons n t ih =>
    intro st h
    unfold wfFrom at h
    simp only [Bool.and_eq_true, Bool.not_eq_true'] at h
    obtain ⟨⟨h1, h2⟩, h3⟩ := h
    have hc : createN st n = .ok (applyCreate st n) := by
      apply createN_eq_ok st n h1
      cases hp : n.parent with
      | none =>
        rw [hp] at h2
        cases hst : st.1 with
        | none => rfl
        | some r => rw [hst] at h2; simp at h2
      | some pid => rw [hp] at h2; exact h2
    unfold buildFold
    rw [hc, List.foldl_cons]
    exact ih (applyCreate st n) h3

theorem foldl_root_stable (L : NodesL) :
    ∀ (st : TState) (r : String), st.1 = some r → wfFrom st L = true →
      (L.foldl applyCreate st).1 = some r := by
  induction L with
  | nil => intro st r hr _; simpa using hr
  | cons n t ih =>
    intro st r hr h
    unfold wfFrom at h
    simp only [Bool.and_eq_true, Bool.not_eq_true'] at h
    obtain ⟨⟨_, h2⟩, h3⟩ := h
    rw [List.foldl_cons]
    apply ih (applyCreate st n) r _ h3
    cases hp : n.parent with
    | none => rw [hp] at h2; rw [hr] at h2; simp at h2
    | some pid => simp [applyCreate, rootUpd, hp, hr]

theorem wf_head_parent_none (n : TNode Elem) (t : NodesL)
    (h : wfFrom (none, []) (n :: t) = true) : n.parent = none := by
  unfold wfFrom at h
  simp only [Bool.and_eq_true, Bool.not_eq_true'] at h
  obtain ⟨⟨_, h2⟩, _⟩ := h
  cases hp : n.parent with
  | none => rfl
  | some pid => rw [hp] at h2; simp at h2

theorem wf_tail (n : TNode Elem) (t : NodesL) (st : TState)
    (h : wfFrom st (n :: t) = true) : wfFrom (applyCreate st n) t = true := by
  unfold wfFrom at h
  simp only [Bool.and_eq_true] at h
  exact h.2

theorem buildFold_root_cons (n : TNode Elem) (t : NodesL)
    (h : wfFrom (none, []) (n :: t) = true) :
    ((n :: t).foldl applyCreate ((none, []) : TState)).1 = some n.id := by
  have hn := wf_head_parent_none n t h
  rw [List.foldl_cons]
  have happ : applyCreate (none, []) n = (some n.id, [n]) := by
    simp [applyCreate, rootUpd, hn]
  rw [happ]
  exact foldl_root_stable t (some n.id, [n]) n.id rfl (by
    have := wf_tail n t (none, []) h
    rwa [happ] at this)

/-! ### Helpers about strings, paths and lookups -/

theorem string_mk_data (s : String) : (⟨s.data⟩ : String) = s := by
  cases s; rfl

theorem data_append3 (a b c : String) : (a ++ b ++ c).data = a.data ++ b.data ++ c.data := by
  rw [String.data_append, String.data_append]

theorem find?_append_none {p : TNode Elem → Bool} {l₁ l₂ : NodesL}
    (h : l₁.any p = false) : (l₁ ++ l₂).find? p = l₂.find? p := by
  rw [List.find?_append]
  have hn : l₁.find? p = none :=
    List.find?_eq_none.2 (fun x hx hp => (List.any_eq_false.1 h) x hx hp)
  rw [hn, Option.none_or]

theorem contains_of_findN {g : GrpS} {i : String} {nd : TNode Elem}
    (h : g.findN i = some nd) : g.contains i = true := by
  unfold GrpS.findN at h
  unfold GrpS.contains
  rw [List.any_eq_true]
  have hmem := List.mem_of_find?_eq_some h
  have hp := List.find?_some h
  exact ⟨nd, hmem, hp⟩

theorem lastSplitChar_absent (c : Char) (m : List Char)
    (hm : m.all (fun d => !(d == c)) = true) : lastSplitChar c m = none := by
  induction m with
  | nil => rfl
  | cons x t ih =>
    simp only [List.all_cons, Bool.and_eq_true, Bool.not_eq_true'] at hm
    rw [lastSplitChar, ih hm.2, hm.1]
    rfl

theorem lastSplitChar_concat (c : Char) (l m : List Char)
    (hm : m.all (fun d => !(d == c)) = true) :
    lastSplitChar c (l ++ c :: m) = some (l, m) := by
  induction l with
  | nil =>
    rw [List.nil_append, lastSplitChar, lastSplitChar_absent c m hm]
    simp
  | cons x t ih =>
    rw [List.cons_append, lastSplitChar, ih]

theorem rsplitSlash_concat (s t : String)
    (ht : t.data.all (fun d => !(d == '/')) = true) :
    rsplitSlash (s ++ "/" ++ t) = some (s, t) := by
  unfold rsplitSlash
  have hd : (s ++ "/" ++ t).data = s.data ++ '/' :: t.data := by
    rw [data_append3]
    show s.data ++ ['/'] ++ t.data = _
    rw [List.append_assoc]
    rfl
  rw [hd, lastSplitChar_concat '/' s.data t.data ht]
  simp [string_mk_data]

theorem parentDir_concat (s t : String)
    (ht : t.data.all (fun d => !(d == '/')) = true) :
    parentDir (s ++ "/" ++ t) = s := by
  unfold parentDir
  rw [rsplitSlash_concat s t ht]

theorem resolveParent_none_root {g : GrpS} {key : String}
    (h : resolveParent g key = none) : g.root = none := by
  unfold resolveParent at h
  cases hr : rsplitSlash key with
  | none => rwa [hr] at h
  | some p => rw [hr] at h; simp at h

/-! ### `ewaWrites` leaves the tree and the value alone -/

theorem ewaWrites_self (g : GrpS) (fs : FS) (key ddType : String) (v : Elem) :
    (ewaWrites g fs key ddType v).self = g := by
  simp only [ewaWrites]
  repeat' split
  all_goals rfl

theorem ewaWrites_val (g : GrpS) (fs : FS) (key ddType : String) (v : Elem) :
    (ewaWrites g fs key ddType v).val = v := by
  simp only [ewaWrites]
  repeat' split
  all_goals rfl

theorem ewaWrites_unlinked (g : GrpS) (fs : FS) (key ddType : String) (v : Elem)
    (hp : g.path = none) :
    ewaWrites g fs key ddType v = ⟨.ok (), g, fs, [], v⟩ := by
  simp only [ewaWrites, hp]
  split
  all_goals rfl

/-! ### The `DataSet` path of `__setitem__` and of `__getitem__` -/

/-- The parent-existence condition `create_node` needs, derived from the
resolver guard having passed. -/
theorem top_parent_cond (g : GrpS) (key : String) (h2 : parentBad g key = false) :
    (match resolveParent g key with
     | none => (((g.root, g.nodes) : TState)).1 = none
     | some pid => (((g.root, g.nodes) : TState)).2.any (fun m => m.id == pid) = true) := by
  cases hrp : resolveParent g key with
  | none => exact resolveParent_none_root hrp
  | some i0 =>
    unfold parentBad at h2
    rw [hrp] at h2
    simpa [GrpS.contains] using h2

/-- Inserting a `DataSet` into an unlinked container: the node is created,
nothing touches the disk. -/
theorem setitem_dataset_unlinked (g : GrpS) (fs : FS) (key : String) (a : Attrs) (df : DF)
    (hp : g.path = none) (h1 : g.contains key = false) (h2 : parentBad g key = false) :
    GrpS.setitem g fs key (.dataset a df) =
      ⟨.ok (),
       { g with
         root := rootUpd (g.root, g.nodes) ⟨leafKey key, key, resolveParent g key, .dataset a df⟩,
         nodes := g.nodes ++ [⟨leafKey key, key, resolveParent g key, .dataset a df⟩] },
       fs, [], .dataset a df⟩ := by
  have hcre := createN_eq_ok (g.root, g.nodes)
    ⟨leafKey key, key, resolveParent g key, .dataset a df⟩ h1 (top_parent_cond g key h2)
  simp only [GrpS.setitem, h1, Bool.false_eq_true, if_false, h2]
  rw [hcre]
  simp only [applyCreate, hp]
  rw [ewaWrites_unlinked]
  rfl

/-- Inserting a `DataSet` into a linked container whose mirrored directory
does not exist yet: the payload write is attempted first and fails, leaving
the disk untouched but the node already in the tree. -/
theorem setitem_dataset_linked (g : GrpS) (fs : FS) (key : String) (a : Attrs) (df : DF)
    (p : String) (hp : g.path = some p)
    (h1 : g.contains key = false) (h2 : parentBad g key = false)
    (hdir : fs.dirs.contains (pjoin p key) = false) :
    GrpS.setitem g fs key (.dataset a df) =
      ⟨.error .fileNotFound,
       { g with
         root := rootUpd (g.root, g.nodes) ⟨leafKey key, key, resolveParent g key, .dataset a df⟩,
         nodes := g.nodes ++ [⟨leafKey key, key, resolveParent g key, .dataset a df⟩] },
       fs, [.writePayload (pjoin (pjoin p key) DATA_FILE)], .dataset a df⟩ := by
  have hcre := createN_eq_ok (g.root, g.nodes)
    ⟨leafKey key, key, resolveParent g key, .dataset a df⟩ h1 (top_parent_cond g key h2)
  have hjoin : pjoin (pjoin p key) DATA_FILE = (pjoin p key) ++ "/" ++ DATA_FILE := by
    simp [pjoin, DATA_FILE]
  have hpd : parentDir (pjoin (pjoin p key) DATA_FILE) = pjoin p key := by
    rw [hjoin]
    apply parentDir_concat
    decide
  have hw : writeFS fs (pjoin (pjoin p key) DATA_FILE) (.parqF df) = .error .fileNotFound := by
    unfold writeFS
    rw [hpd, hdir]
    rfl
  simp only [GrpS.setitem, h1, Bool.false_eq_true, if_false, h2]
  rw [hcre]
  simp only [applyCreate, hp]
  rw [hw]

/-- Looking up a `DataSet` node whose payload is nonempty returns it as-is:
no disk read, no state change. -/
theorem getitem_dataset_loaded (g : GrpS) (fs : FS) (item : String)
    (nd : TNode Elem) (a : Attrs) (df : DF)
    (hf : g.findN item = some nd) (hd : nd.data = .dataset a df)
    (hdf : df.isEmpty = false) :
    GrpS.getitem g fs item = ⟨.ok (.el (.dataset a df)), g, []⟩ := by
  have hc := contains_of_findN hf
  simp only [GrpS.getitem, hc, Bool.not_true, Bool.false_eq_true, if_false]
  rw [hf]
  simp only [hd, hdf, Bool.false_eq_true, if_false]

/-- The node just appended for a fresh key is the one a lookup finds. -/
theorem findN_append_fresh (g : GrpS) (r' : Option String) (key : String)
    (nd : TNode Elem) (hid : nd.id = key) (h1 : g.contains key = false) :
    GrpS.findN { g with root := r', nodes := g.nodes ++ [nd] } key = some nd := by
  unfold GrpS.findN
  show (g.nodes ++ [nd]).find? (fun n => n.id == key) = some nd
  rw [find?_append_none h1]
  simp [List.find?, hid]

/-! ### The flatten-out path of `__getitem__` -/

/-- The per-node reduction flatten-out performs: identifier and parent are
cut after the first occurrence of `item` (`split(item, maxsplit=1)[1]`) —
only the prefix `item` is removed, the following separator stays; the
subtree root's data aliases the owning container (`selfRef`). -/
def reduceN (item : String) (n : TNode Elem) : Option (TNode Elem) :=
  match (match n.parent with
         | none => some (none : Option String)
         | some pp => (pySplitAfter pp item).map some),
        pySplitAfter n.id item with
  | some rp, some rid => some ⟨n.tag, rid, rp, if n.id == item then .selfRef else n.data⟩
  | _, _ => none

def reduceL (item : String) : NodesL → Option NodesL
  | [] => some []
  | n :: t =>
    match reduceN item n, reduceL item t with
    | some m, some l => some (m :: l)
    | _, _ => none

theorem flatFold_eq_buildFold (item : String) (L : NodesL) :
    ∀ (L' : NodesL) (st : TState), reduceL item L = some L' →
      flatFold item L st = buildFold L' st := by
  induction L with
  | nil =>
    intro L' st h
    unfold reduceL at h
    injection h with h
    rw [← h]
    rfl
  | cons n t ih =>
    intro L' st h
    unfold reduceL at h
    cases hn : reduceN item n with
    | none => rw [hn] at h; simp at h
    | some m =>
      rw [hn] at h
      cases ht : reduceL item t with
      | none => rw [ht] at h; simp at h
      | some l =>
        rw [ht] at h
        simp only [Option.some.injEq] at h
        unfold reduceN at hn
        cases hrp : (match n.parent with
            | none => some (none : Option String)
            | some pp => (pySplitAfter pp item).map some) with
        | none => rw [hrp] at hn; simp at hn
        | some rp =>
          cases hrid : pySplitAfter n.id item with
          | none => rw [hrp, hrid] at hn; simp at hn
          | some rid =>
            rw [hrp, hrid] at hn
            simp only [Option.some.injEq] at hn
            unfold flatFold
            rw [hrp, hrid]
            simp only []
            rw [hn, ← h]
            unfold buildFold
            cases hcm : createN st m with
            | error e => rfl
            | ok st' => exact ih l st' ht

/-- Reading a `Group` node whose own tree is still fresh (as built by the
open scan): the subtree is reduced and rebuilt inside the value's tree, the
reduced root becomes its root, and the updated value is both returned and
written back into the node. -/
theorem getitem_group_fresh (g : GrpS) (fs : FS) (item : String)
    (nd : TNode Elem) (gt : String) (ga : Attrs) (gp : Option String)
    (rh : TNode Elem) (rt : NodesL)
    (hf : g.findN item = some nd) (hd : nd.data = .group gt ga gp none [])
    (hred : reduceL item (subtreeNodes g item) = some (rh :: rt))
    (hwf : wfFrom (none, []) (rh :: rt) = true) :
    GrpS.getitem g fs item =
      ⟨.ok (.el (.group gt ga gp (some rh.id) (rh :: rt))),
       setData g item (.group gt ga gp (some rh.id) (rh :: rt)), []⟩ := by
  have hc := contains_of_findN hf
  have hff := flatFold_eq_buildFold item (subtreeNodes g item) (rh :: rt) (none, []) hred
  have hbf := buildFold_wf (rh :: rt) (none, []) hwf
  have hroot : ((rh :: rt).foldl applyCreate ((none, []) : TState)).1 = some rh.id :=
    buildFold_root_cons rh rt hwf
  have hnodes : ((rh :: rt).foldl applyCreate ((none, []) : TState)).2 = rh :: rt := by
    rw [foldl_applyCreate_nodes]
    rfl
  simp only [GrpS.getitem, hc, Bool.not_true, Bool.false_eq_true, if_false]
  rw [hf]
  simp only [hd]
  rw [hff, hbf]
  simp only [hroot, hnodes]

/-! ### `Group.__setitem__` can fail in many ways, but never with the
read-only rejection: only `File.__setitem__` checks the mode. -/

/-- Is this error the read-only rejection? -/
def roErr : Err → Bool
  | .readOnly => true
  | _ => false

/-- Is this outcome the read-only rejection? -/
def roExc {α : Type} : Except Err α → Bool
  | .error e => roErr e
  | .ok _ => false

theorem roExc_createN (st : TState) (n : TNode Elem) : roExc (createN st n) = false := by
  unfold createN
  repeat' split
  all_goals rfl

theorem roExc_pasteT (st : TState) (nid : String) (other : TState) :
    roExc (pasteT st nid other) = false := by
  unfold pasteT
  repeat' split
  all_goals rfl

theorem roExc_mkdirFS (fs : FS) (p : String) : roExc (mkdirFS fs p) = false := by
  unfold mkdirFS
  repeat' split
  all_goals rfl

theorem roExc_writeFS (fs : FS) (p : String) (c : FCont) : roExc (writeFS fs p c) = false := by
  unfold writeFS
  split
  all_goals rfl

theorem roExc_ewaWrites (g : GrpS) (fs : FS) (key ddType : String) (v : Elem) :
    roExc (ewaWrites g fs key ddType v).res = false := by
  simp only [ewaWrites]
  split
  · split
    · rfl
    · rename_i p hpeq
      split
      · rename_i e heq
        have h := roExc_mkdirFS fs (pjoin p key)
        rw [heq] at h
        simpa using h
      · rename_i fs1 heq1
        split
        · rename_i e heq
          have h := roExc_writeFS fs1 (pjoin (pjoin p key) DDIR_FILE) (.ddirF ddType ddVersion)
          rw [heq] at h
          simpa using h
        · rename_i fs2 heq2
          split
          · rename_i e heq
            have h := roExc_writeFS fs2 (pjoin (pjoin p key) ATTRIBUTES_FILE)
              (.attrsF (elAttrs v))
            rw [heq] at h
            simpa using h
          · rfl
  · rfl

theorem roExc_setitem (g : GrpS) (fs : FS) (key : String) (v : Elem) :
    roExc (GrpS.setitem g fs key v).res = false := by
  simp only [GrpS.setitem]
  split
  · rfl
  · split
    · rfl
    · cases v with
      | group vty va vp vroot vnodes =>
        cases vnodes with
        | cons n t => rfl
        | nil =>
          simp only []
          split
          · rename_i e heq
            have h := roExc_createN (g.root, g.nodes)
              ⟨leafKey key, key, resolveParent g key, .group vty va vp vroot []⟩
            rw [heq] at h
            simpa using h
          · rename_i st1 heq1
            split
            · rename_i e heq
              have h := roExc_pasteT st1 key (none, [])
              rw [heq] at h
              simpa using h
            · exact roExc_ewaWrites _ _ _ _ _
      | dataset da ddf =>
        simp only []
        split
        · rename_i e heq
          have h := roExc_createN (g.root, g.nodes)
            ⟨leafKey key, key, resolveParent g key, .dataset da ddf⟩
          rw [heq] at h
          simpa using h
        · split
          · exact roExc_ewaWrites _ _ _ _ _
          · rename_i p hpeq
            split
            · rename_i e heq
              have h := roExc_writeFS fs (pjoin (pjoin p key) DATA_FILE) (.parqF ddf)
              rw [heq] at h
              simpa using h
            · exact roExc_ewaWrites _ _ _ _ _
      | raw => rfl
      | attrMark => rfl
      | selfRef => rfl

/-! ## Claim C1 -/

def exC1fs : FS := ⟨[], []⟩

def exC1base : GrpS := ⟨"group", [], none, none, []⟩

def exC1s1 : SRes := GrpS.setitem exC1base exC1fs "a" (.dataset [] [1])

def exC1s2 : SRes := GrpS.setitem exC1s1.self exC1s1.fs "k" .raw

def exC1g : GRes := GrpS.getitem exC1s2.self exC1s2.fs "k"

/-- C1 counterexample: the claim asserts that for EVERY element variant,
`C[K] = v; C[K]` returns an element structurally equal to `v`.  For the
`Raw` variant this is false: `C["k"] = Raw()` succeeds but creates no node
(the `Raw` branch of `__setitem__` is `pass`), so the subsequent `C["k"]`
raises `KeyError` instead of returning the element. -/
theorem claim_C1_counterexample :
    exC1s2.res = .ok () ∧ exC1s2.self.contains "k" = false ∧
      exC1g.res = .error .keyError :=
  ⟨rfl, rfl, rfl⟩

/-- C1 amended: the set-then-get round-trip holds for a `DataSet` value with
a nonempty payload inserted under a fresh key (with an existing parent) of an
UNLINKED container: insertion succeeds and the lookup returns the element
unchanged (same attribute map and payload) with no disk access.  The other
variants fail the round-trip: `Raw`/`Attribute` create no node, a `Container`
with a nonempty store already fails at insertion (the absorb loop reads
`node.parent`, which treelib nodes lack, raising `AttributeError`), an
empty `DataSet` cannot lazy-load without a Backing Link, and under a linked
container `DataSet` insertion itself fails writing the payload. -/
theorem claim_C1_amended (g : GrpS) (fs : FS) (key : String) (a : Attrs) (df : DF)
    (hp : g.path = none) (h1 : g.contains key = false) (h2 : parentBad g key = false)
    (hdf : df.isEmpty = false) :
    (GrpS.setitem g fs key (.dataset a df)).res = .ok () ∧
    GrpS.getitem (GrpS.setitem g fs key (.dataset a df)).self
        (GrpS.setitem g fs key (.dataset a df)).fs key
      = ⟨.ok (.el (.dataset a df)), (GrpS.setitem g fs key (.dataset a df)).self, []⟩ := by
  have hs := setitem_dataset_unlinked g fs key a df hp h1 h2
  constructor
  · rw [hs]
  · rw [hs]
    exact getitem_dataset_loaded _ _ _ _ a df
      (findN_append_fresh g _ key _ rfl h1) rfl hdf

/-- C1 witness: the amended claim at a concrete input. -/
theorem claim_C1_witness :
    (GrpS.setitem exC1base exC1fs "d" (.dataset [] [5])).res = .ok () ∧
    GrpS.getitem (GrpS.setitem exC1base exC1fs "d" (.dataset [] [5])).self
        (GrpS.setitem exC1base exC1fs "d" (.dataset [] [5])).fs "d"
      = ⟨.ok (.el (.dataset [] [5])), (GrpS.setitem exC1base exC1fs "d" (.dataset [] [5])).self, []⟩ :=
  claim_C1_amended exC1base exC1fs "d" [] [5] rfl rfl rfl rfl

/-! ## Claim C2 -/

def exC2fs0 : FS := ⟨["/tmp"], []⟩

def exC2w := fileInit exC2fs0 "/tmp/x" "w"

def exC2f : Fil :=
  match exC2w.1 with
  | .ok f => f
  | .error _ => ⟨⟨"group", [], none, none, []⟩, "r"⟩

def exC2s := Fil.setitem exC2f exC2w.2.1 "g" (.group "group" [] none none [])

def exC2a := fileInit exC2s.fs "/tmp/x" "a"

/-- C2 (code bug): a root created in `'w'` mode at `/tmp/x` and populated
with a group reopens in `'a'` mode NOT with a reconstructed store but with
`NameError`: line 172 of `File.__init__` evaluates `i.relative_to(p)` where
`p` is a module global defined only inside the `__main__` block, so any
library use of `'a'`/`'r'` mode raises before reconstruction starts (the
evident intent is `self.path`).  The theorem evaluates the model end to end:
creation succeeds, the insertion succeeds and mirrors to disk, and the
reopen fails with the NameError. -/
theorem claim_C2_code_bug :
    exC2w.1 = .ok exC2f ∧ exC2s.res = .ok () ∧
      readFS exC2s.fs "/tmp/x/g/ddir.json" = some (.ddirF "group" ddVersion) ∧
      exC2a.1 = .error .nameError :=
  ⟨rfl, rfl, rfl, rfl⟩

/-! ## Claim C3 -/

def exC3inner : SRes := GrpS.setitem ⟨"group", [], none, none, []⟩ ⟨[], []⟩ "a" (.dataset [] [7])

def exC3v : Elem :=
  .group exC3inner.self.ty exC3inner.self.attrs exC3inner.self.path
    exC3inner.self.root exC3inner.self.nodes

def exC3r : SRes := GrpS.setitem ⟨"group", [], none, none, []⟩ ⟨[], []⟩ "g" exC3v

/-- C3 (code bug): the claim describes the intended absorb-in rewrite —
every source node re-keyed to `K + "/" + old_identifier` with tags,
elements and parent/child shape preserved — but the code cannot perform
it: the loop at lines 121-127 reads `node.parent`, and treelib's `Node`
has no `parent` attribute (the flatten-out loop at lines 88-91 uses the
real API, `n.predecessor(tree_id)`), so inserting a Container whose store
is nonempty raises `AttributeError` at the first iteration, before any
`create_node` runs and before `value.tree` is reassigned.  The theorem
evaluates the failing input — a container holding one dataset node `"a"`
inserted under `"g"` — and shows the insertion fails with the destination
store, the filesystem, the event trace and the inserted value all
unchanged: the claimed rewrite never happens. -/
theorem claim_C3_code_bug :
    exC3r.res = .error .attributeError ∧
    exC3r.self.nodes = [] ∧ exC3r.fs = ⟨[], []⟩ ∧ exC3r.evs = [] ∧ exC3r.val = exC3v :=
  ⟨rfl, rfl, rfl, rfl, rfl⟩

/-! ## Claim C4 -/

def exC4s1 : SRes := GrpS.setitem ⟨"group", [], none, none, []⟩ ⟨[], []⟩ "g"
  (.group "group" [] none none [])

def exC4s2 : SRes := GrpS.setitem exC4s1.self exC4s1.fs "g/ds" (.dataset [] [4])

def exC4g : GRes := GrpS.getitem exC4s2.self exC4s2.fs "g"

/-- C4 counterexample: the claim says flatten-out strips the prefix `P`
PLUS the separator.  Reading `"g"` out of a store holding `"g"` and
`"g/ds"`, the code computes `"g/ds".split("g", 1)[1] = "/ds"` — only the
prefix is stripped, the separator stays — so the returned container's store
holds `""` (the root) and `"/ds"`, and no node `"ds"` exists. -/
theorem claim_C4_counterexample :
    exC4g.res = .ok (.el (.group "group" [] none (some "")
      [⟨"g", "", none, .selfRef⟩, ⟨"ds", "/ds", some "", .dataset [] [4]⟩])) ∧
    (match exC4g.res with
     | .ok (.el (.group _ _ _ _ ns)) => ns.any (fun n => n.id == "ds")
     | _ => true) = false :=
  ⟨rfl, rfl⟩

/-- C4 amended: reading a `Group` node stored under prefix `item` whose own
tree is still fresh reduces every subtree node with
`split(item, 1)[1]` — stripping only the prefix `item`, keeping the
separator, the subtree root reducing to `""` — preserving tags (the subtree
root's data aliases the owning container, the rest keep their elements),
and the node with no predecessor in the subtree (the reduced root, parent
cleared) becomes the root of the returned container's store. -/
theorem claim_C4_amended (g : GrpS) (fs : FS) (item : String)
    (nd : TNode Elem) (gt : String) (ga : Attrs) (gp : Option String)
    (rh : TNode Elem) (rt : NodesL)
    (hf : g.findN item = some nd) (hd : nd.data = .group gt ga gp none [])
    (hred : reduceL item (subtreeNodes g item) = some (rh :: rt))
    (hwf : wfFrom (none, []) (rh :: rt) = true) :
    GrpS.getitem g fs item =
      ⟨.ok (.el (.group gt ga gp (some rh.id) (rh :: rt))),
       setData g item (.group gt ga gp (some rh.id) (rh :: rt)), []⟩ ∧
    rh.parent = none := by
  refine ⟨getitem_group_fresh g fs item nd gt ga gp rh rt hf hd hred hwf, ?_⟩
  exact wf_head_parent_none rh rt hwf

/-- C4 witness: the amended claim at a concrete input. -/
theorem claim_C4_witness :
    (GrpS.getitem exC4s2.self exC4s2.fs "g" =
      ⟨.ok (.el (.group "group" [] none (some "")
        [⟨"g", "", none, .selfRef⟩, ⟨"ds", "/ds", some "", .dataset [] [4]⟩])),
       setData exC4s2.self "g" (.group "group" [] none (some "")
        [⟨"g", "", none, .selfRef⟩, ⟨"ds", "/ds", some "", .dataset [] [4]⟩]), []⟩) ∧
    (⟨"g", "", none, .selfRef⟩ : TNode Elem).parent = none :=
  claim_C4_amended exC4s2.self exC4s2.fs "g"
    ⟨"g", "g", none, .group "group" [] none none []⟩ "group" [] none
    ⟨"g", "", none, .selfRef⟩ [⟨"ds", "/ds", some "", .dataset [] [4]⟩]
    rfl rfl rfl rfl

/-! ## Claim C5 -/

def exC5g : GrpS := ⟨"group", [], some "/tmp/r", some "d", [⟨"d", "d", none, .dataset [] []⟩]⟩

def exC5fs : FS := ⟨["/tmp", "/tmp/r", "/tmp/r/d"], [("/tmp/r/d/data.parq", .parqF [])]⟩

def exC5r1 : GRes := GrpS.getitem exC5g exC5fs "d"

def exC5r2 : GRes := GrpS.getitem exC5r1.self exC5fs "d"

/-- C5 counterexample: the claim says the payload is read from disk at most
once per node, with subsequent lookups observing the loaded state without
re-reading.  The reload condition is `df.empty` — the "unloaded" sentinel —
so a payload that is legitimately empty is indistinguishable from an
unloaded one (the limitation §9 of the spec notes): the first lookup loads
the empty on-disk payload successfully, and a second lookup of the same
key reads the file again, overwriting the in-memory payload. -/
theorem claim_C5_counterexample :
    exC5r1.res = .ok (.el (.dataset [] [])) ∧
    exC5r1.evs = [.readPayload "/tmp/r/d/data.parq"] ∧
    exC5r2.evs = [.readPayload "/tmp/r/d/data.parq"] :=
  ⟨rfl, rfl, rfl⟩

/-- C5 amended: once the in-memory payload is NONEMPTY — after a load that
yielded rows, or an in-place mutation leaving rows — a lookup returns the
in-memory payload with no disk read and no state change; a payload that is
empty at lookup time is re-read on every access. -/
theorem claim_C5_amended (g : GrpS) (fs : FS) (item : String)
    (nd : TNode Elem) (a : Attrs) (df : DF)
    (hf : g.findN item = some nd) (hd : nd.data = .dataset a df)
    (hdf : df.isEmpty = false) :
    GrpS.getitem g fs item = ⟨.ok (.el (.dataset a df)), g, []⟩ :=
  getitem_dataset_loaded g fs item nd a df hf hd hdf

/-- C5 witness: the amended claim at a concrete input (a loaded payload). -/
theorem claim_C5_witness :
    GrpS.getitem (⟨"group", [], some "/tmp/r", some "d",
        [⟨"d", "d", none, .dataset [] [3]⟩]⟩ : GrpS) exC5fs "d"
      = ⟨.ok (.el (.dataset [] [3])),
         ⟨"group", [], some "/tmp/r", some "d", [⟨"d", "d", none, .dataset [] [3]⟩]⟩, []⟩ :=
  claim_C5_amended _ exC5fs "d" ⟨"d", "d", none, .dataset [] [3]⟩ [] [3] rfl rfl rfl

/-! ## Claim C6 -/

/-- C6: inserting under a read-mode root fails with the read-only violation
before anything is touched: `File.__setitem__` checks the mode first, so
both the in-memory store and the disk are returned unchanged and no disk
event is attempted. -/
theorem claim_C6 (f : Fil) (fs : FS) (key : String) (v : Elem) (h : f.mode = "r") :
    Fil.setitem f fs key v = ⟨.error .readOnly, f, fs, [], v⟩ := by
  unfold Fil.setitem
  rw [h]
  rfl

/-- C6 witness: the claim at a concrete input. -/
theorem claim_C6_witness :
    Fil.setitem ⟨⟨"file", [], some "/tmp/x", none, []⟩, "r"⟩ ⟨[], []⟩ "k" .raw
      = ⟨.error .readOnly, ⟨⟨"file", [], some "/tmp/x", none, []⟩, "r"⟩, ⟨[], []⟩, [], .raw⟩ :=
  claim_C6 ⟨⟨"file", [], some "/tmp/x", none, []⟩, "r"⟩ ⟨[], []⟩ "k" .raw rfl

/-! ## Claim C7 -/

def exC7s1 : SRes := GrpS.setitem ⟨"group", [], none, none, []⟩ ⟨[], []⟩ "a" (.dataset [] [2])

def exC7r : SRes := GrpS.setitem exC7s1.self exC7s1.fs "k" .raw

/-- C7 counterexample: the claim says inserting a `Raw` value under a fresh
key creates a node for `K`.  The `Raw` branch of `__setitem__` is `pass`
(line 137-138): insertion "succeeds" yet no node is created, so `K` is NOT
a present node identifier afterwards. -/
theorem claim_C7_counterexample :
    exC7r.res = .ok () ∧ exC7r.self.contains "k" = false :=
  ⟨rfl, rfl⟩

/-- C7 amended: inserting a `Raw` value under a fresh key with an existing
parent is a complete no-op: no error, no node, no disk event, store, disk
and value all returned unchanged. -/
theorem claim_C7_amended (g : GrpS) (fs : FS) (key : String)
    (h1 : g.contains key = false) (h2 : parentBad g key = false) :
    GrpS.setitem g fs key .raw = ⟨.ok (), g, fs, [], .raw⟩ := by
  simp only [GrpS.setitem, h1, Bool.false_eq_true, if_false, h2]

/-- C7 witness: the amended claim at a concrete input. -/
theorem claim_C7_witness :
    GrpS.setitem exC7s1.self exC7s1.fs "w" .raw = ⟨.ok (), exC7s1.self, exC7s1.fs, [], .raw⟩ :=
  claim_C7_amended exC7s1.self exC7s1.fs "w" rfl rfl

/-! ## Claim C8 -/

/-- The common persistence block under a linked container when the mirrored
directory is fresh and its parent exists: directory creation, then the type
descriptor, then the attribute map, in that order. -/
theorem ewaWrites_linked_evs (g : GrpS) (fs : FS) (key ddType : String) (v : Elem)
    (p : String) (hew : isEWA v = true) (hp : g.path = some p)
    (hd1 : fs.dirs.contains (pjoin p key) = false)
    (hd2 : fs.files.any (fun q => q.1 == pjoin p key) = false)
    (hd3 : fs.dirs.contains (parentDir (pjoin p key)) = true) :
    (ewaWrites g fs key ddType v).res = .ok () ∧
    (ewaWrites g fs key ddType v).evs =
      [.mkdirEv (pjoin p key), .writeDdir (pjoin p key) ddType, .writeAttrs (pjoin p key)] := by
  have hm : mkdirFS fs (pjoin p key) = .ok ⟨fs.dirs ++ [pjoin p key], fs.files⟩ := by
    unfold mkdirFS
    rw [hd1, hd2, hd3]
    rfl
  have hjoin1 : pjoin (pjoin p key) DDIR_FILE = (pjoin p key) ++ "/" ++ DDIR_FILE := by
    simp [pjoin, DDIR_FILE]
  have hjoin2 : pjoin (pjoin p key) ATTRIBUTES_FILE = (pjoin p key) ++ "/" ++ ATTRIBUTES_FILE := by
    simp [pjoin, ATTRIBUTES_FILE]
  have hcontains : (fs.dirs ++ [pjoin p key]).contains (pjoin p key) = true := by
    simp
  have hw1 : writeFS ⟨fs.dirs ++ [pjoin p key], fs.files⟩
      (pjoin (pjoin p key) DDIR_FILE) (.ddirF ddType ddVersion)
      = .ok (FS.mk (fs.dirs ++ [pjoin p key])
             (fs.files.filter (fun q => !(q.1 == pjoin (pjoin p key) DDIR_FILE))
               ++ [(pjoin (pjoin p key) DDIR_FILE, .ddirF ddType ddVersion)])) := by
    unfold writeFS
    rw [hjoin1, parentDir_concat _ _ (by decide)]
    simp only [hcontains, if_true]
  have hw2 : writeFS (FS.mk (fs.dirs ++ [pjoin p key])
        (fs.files.filter (fun q => !(q.1 == pjoin (pjoin p key) DDIR_FILE))
          ++ [(pjoin (pjoin p key) DDIR_FILE, FCont.ddirF ddType ddVersion)]))
      (pjoin (pjoin p key) ATTRIBUTES_FILE) (FCont.attrsF (elAttrs v))
      = Except.ok (FS.mk (fs.dirs ++ [pjoin p key])
             (List.filter (fun q => !(q.1 == pjoin (pjoin p key) ATTRIBUTES_FILE))
                 (fs.files.filter (fun q => !(q.1 == pjoin (pjoin p key) DDIR_FILE))
                   ++ [(pjoin (pjoin p key) DDIR_FILE, FCont.ddirF ddType ddVersion)])
               ++ [(pjoin (pjoin p key) ATTRIBUTES_FILE, FCont.attrsF (elAttrs v))])) := by
    unfold writeFS
    rw [hjoin2, parentDir_concat _ _ (by decide)]
    simp only [hcontains, if_true]
  simp only [ewaWrites, hew, if_true, hp]
  rw [hm]
  simp only []
  rw [hw1]
  simp only []
  rw [hw2]
  exact ⟨rfl, rfl⟩

/-- Inserting a `Group` value with an EMPTY source tree: the absorb loop
never runs (so it cannot raise), paste of the empty tree is a no-op, and
the result is the common persistence block over the store extended with
the top node holding the value. -/
theorem setitem_group_empty (g : GrpS) (fs : FS) (key vty : String) (va : Attrs)
    (vp vroot : Option String)
    (h1 : g.contains key = false) (h2 : parentBad g key = false) :
    GrpS.setitem g fs key (.group vty va vp vroot []) =
      ewaWrites
        { g with
          root := rootUpd (g.root, g.nodes)
            ⟨leafKey key, key, resolveParent g key, .group vty va vp vroot []⟩,
          nodes := g.nodes ++ [⟨leafKey key, key, resolveParent g key, .group vty va vp vroot []⟩] }
        fs key vty (.group vty va vp vroot []) := by
  have hcre := createN_eq_ok (g.root, g.nodes)
    ⟨leafKey key, key, resolveParent g key, .group vty va vp vroot []⟩ h1 (top_parent_cond g key h2)
  simp only [GrpS.setitem, h1, Bool.false_eq_true, if_false, h2]
  rw [hcre]
  simp only [pasteT, applyCreate]

def exC8w := fileInit ⟨["/tmp"], []⟩ "/tmp/y" "w"

def exC8f : Fil :=
  match exC8w.1 with
  | .ok f => f
  | .error _ => ⟨⟨"group", [], none, none, []⟩, "r"⟩

def exC8r : FRes := Fil.setitem exC8f exC8w.2.1 "d" (.dataset [] [9])

/-- C8 counterexample: the claim says writes happen descriptor first, then
attribute map, then (for `DataSet`) the payload.  Inserting a `DataSet`
into a linked root attempts the PAYLOAD first (line 135 runs before the
`mkdir`/descriptor/attribute block of lines 144-148): the trace holds a
single payload-write attempt and no descriptor write, the attempt fails
because the node's directory does not exist yet, the disk is unchanged,
and the node is left in the in-memory tree. -/
theorem claim_C8_counterexample :
    exC8r.evs = [.writePayload "/tmp/y/d/data.parq"] ∧
    exC8r.res = .error .fileNotFound ∧
    exC8r.fs = exC8w.2.1 ∧
    exC8r.f.g.contains "d" = true :=
  ⟨rfl, rfl, rfl, rfl⟩

/-- C8 amended: for a `DataSet` under a linked container the code attempts
the payload write FIRST — before directory creation, descriptor and
attribute map — and since the mirrored directory does not exist yet the
write fails, aborting the insertion with the disk unchanged (the node
remains in the tree); for a `Container` value the order is directory
creation, then descriptor, then attribute map. -/
theorem claim_C8_amended :
    (∀ (g : GrpS) (fs : FS) (key : String) (a : Attrs) (df : DF) (p : String),
      g.path = some p → g.contains key = false → parentBad g key = false →
      fs.dirs.contains (pjoin p key) = false →
      (GrpS.setitem g fs key (.dataset a df)).evs
          = [.writePayload (pjoin (pjoin p key) DATA_FILE)] ∧
        (GrpS.setitem g fs key (.dataset a df)).res = .error .fileNotFound ∧
        (GrpS.setitem g fs key (.dataset a df)).fs = fs) ∧
    (∀ (g : GrpS) (fs : FS) (key vty : String) (va : Attrs) (p : String),
      g.path = some p → g.contains key = false → parentBad g key = false →
      fs.dirs.contains (pjoin p key) = false →
      fs.files.any (fun q => q.1 == pjoin p key) = false →
      fs.dirs.contains (parentDir (pjoin p key)) = true →
      (GrpS.setitem g fs key (.group vty va none none [])).res = .ok () ∧
        (GrpS.setitem g fs key (.group vty va none none [])).evs
          = [.mkdirEv (pjoin p key), .writeDdir (pjoin p key) vty,
             .writeAttrs (pjoin p key)]) := by
  constructor
  · intro g fs key a df p hp h1 h2 hdir
    rw [setitem_dataset_linked g fs key a df p hp h1 h2 hdir]
    exact ⟨rfl, rfl, rfl⟩
  · intro g fs key vty va p hp h1 h2 hd1 hd2 hd3
    rw [setitem_group_empty g fs key vty va none none h1 h2]
    exact ewaWrites_linked_evs _ fs key vty _ p rfl (by simpa using hp) hd1 hd2 hd3

/-- C8 witness: both parts of the amended claim at concrete inputs. -/
theorem claim_C8_witness :
    ((GrpS.setitem ⟨"file", [], some "/tmp/y", some ".", [⟨".", ".", none, .selfRef⟩]⟩
        ⟨["/tmp", "/tmp/y"], []⟩ "d" (.dataset [] [9])).evs
      = [.writePayload (pjoin (pjoin "/tmp/y" "d") DATA_FILE)] ∧
     (GrpS.setitem ⟨"file", [], some "/tmp/y", some ".", [⟨".", ".", none, .selfRef⟩]⟩
        ⟨["/tmp", "/tmp/y"], []⟩ "d" (.dataset [] [9])).res = .error .fileNotFound ∧
     (GrpS.setitem ⟨"file", [], some "/tmp/y", some ".", [⟨".", ".", none, .selfRef⟩]⟩
        ⟨["/tmp", "/tmp/y"], []⟩ "d" (.dataset [] [9])).fs = ⟨["/tmp", "/tmp/y"], []⟩) ∧
    ((GrpS.setitem ⟨"file", [], some "/tmp/y", some ".", [⟨".", ".", none, .selfRef⟩]⟩
        ⟨["/tmp", "/tmp/y"], []⟩ "h" (.group "group" [] none none [])).res = .ok () ∧
     (GrpS.setitem ⟨"file", [], some "/tmp/y", some ".", [⟨".", ".", none, .selfRef⟩]⟩
        ⟨["/tmp", "/tmp/y"], []⟩ "h" (.group "group" [] none none [])).evs
      = [.mkdirEv (pjoin "/tmp/y" "h"), .writeDdir (pjoin "/tmp/y" "h") "group",
         .writeAttrs (pjoin "/tmp/y" "h")]) :=
  ⟨claim_C8_amended.1 ⟨"file", [], some "/tmp/y", some ".", [⟨".", ".", none, .selfRef⟩]⟩
      ⟨["/tmp", "/tmp/y"], []⟩ "d" [] [9] "/tmp/y" rfl rfl rfl rfl,
   claim_C8_amended.2 ⟨"file", [], some "/tmp/y", some ".", [⟨".", ".", none, .selfRef⟩]⟩
      ⟨["/tmp", "/tmp/y"], []⟩ "h" "group" [] "/tmp/y" rfl rfl rfl rfl rfl (by decide)⟩

/-! ## Claim C9 -/

def exC9pre : SRes := GrpS.setitem ⟨"group", [], none, none, []⟩ ⟨[], []⟩ "a" (.dataset [] [2])

def exC9r : SRes := GrpS.setitem exC9pre.self exC9pre.fs "k" (.group "group" [] none none [])

/-- C9 counterexample: the claim says inserting a Container `g` mutates `g`
itself, replacing its store with a prefixed one.  For a Container with an
EMPTY store — the most common insertion, `C[K] = Group()` — the rebase loop
body (which contains the `value.tree = new_tree` assignment, line 127) never
runs, so `g` is returned exactly as it was passed: unchanged. -/
theorem claim_C9_counterexample :
    exC9r.res = .ok () ∧ exC9r.val = .group "group" [] none none [] :=
  ⟨rfl, rfl⟩

/-- C9 amended: inserting a Container `g` never mutates `g`.  With an
empty store the absorb loop body — including the `value.tree = new_tree`
assignment of line 127 — never runs, and `g` is returned exactly as
passed; with a nonempty store the loop's first iteration raises
`AttributeError` at `node.parent` (treelib nodes have no such attribute)
before that assignment executes, so the insertion fails with `g`, the
destination store and the disk all left unchanged. -/
theorem claim_C9_amended (g : GrpS) (fs : FS) (key vty : String) (va : Attrs)
    (vp vroot : Option String) (gh : TNode Elem) (gt2 : NodesL)
    (h1 : g.contains key = false) (h2 : parentBad g key = false) :
    GrpS.setitem g fs key (.group vty va vp vroot (gh :: gt2))
      = ⟨.error .attributeError, g, fs, [], .group vty va vp vroot (gh :: gt2)⟩ ∧
    (GrpS.setitem g fs key (.group vty va vp vroot [])).val = .group vty va vp vroot [] := by
  constructor
  · simp only [GrpS.setitem, h1, Bool.false_eq_true, if_false, h2]
  · rw [setitem_group_empty g fs key vty va vp vroot h1 h2, ewaWrites_val]

/-- C9 witness: the amended claim at a concrete input. -/
theorem claim_C9_witness :
    (GrpS.setitem exC9pre.self exC9pre.fs "h"
        (.group "group" [] none (some "b") [⟨"b", "b", none, .dataset [] [6]⟩])
      = ⟨.error .attributeError, exC9pre.self, exC9pre.fs, [],
         .group "group" [] none (some "b") [⟨"b", "b", none, .dataset [] [6]⟩]⟩) ∧
    (GrpS.setitem exC9pre.self exC9pre.fs "h" (.group "group" [] none (some "b") [])).val
      = .group "group" [] none (some "b") [] :=
  claim_C9_amended exC9pre.self exC9pre.fs "h" "group" [] none (some "b")
    ⟨"b", "b", none, .dataset [] [6]⟩ [] rfl rfl

/-! ## Claim C10 -/

/-- A child `Group` as reconstructed by the open scan (lines 186-188:
`data = Group(); data.link(self.path)`) and then read out through
`__getitem__`: it carries the ROOT's backing path, and its flattened tree
has the reduced root `""` whose data aliases the container. -/
def exC10g : GrpS := ⟨"group", [], some "/tmp/r", some "", [⟨"child", "", none, .selfRef⟩]⟩

def exC10fs : FS := ⟨["/tmp", "/tmp/r"], []⟩

def exC10r : SRes := GrpS.setitem exC10g exC10fs "n" (.group "group" [] none none [])

/-- C10: only `File.__setitem__` checks the access mode.  First conjunct:
`Group.__setitem__` NEVER produces the read-only rejection, whatever the
container, filesystem, key or value.  The remaining conjuncts: through a
child group carrying the root's Backing Link (as built by a read-mode
open), insertion proceeds normally — it succeeds, mutates the tree, and
writes the mirrored directory, descriptor and attribute files to disk under
the root path. -/
theorem claim_C10 :
    (∀ (g : GrpS) (fs : FS) (key : String) (v : Elem),
        roExc (GrpS.setitem g fs key v).res = false) ∧
    exC10r.res = .ok () ∧
    exC10r.self.contains "n" = true ∧
    exC10r.evs = [.mkdirEv "/tmp/r/n", .writeDdir "/tmp/r/n" "group", .writeAttrs "/tmp/r/n"] ∧
    exC10r.fs.files = [("/tmp/r/n/ddir.json", .ddirF "group" "0.6"),
                       ("/tmp/r/n/attributes.json", .attrsF [])] :=
  ⟨roExc_setitem, rfl, rfl, rfl, rfl⟩

end DataDir
